import Mathlib

/-!
Shallow embedding of the Cucumber-Expression-to-regex compiler of
`src/src/CucumberExpression.cpp` (namespace `cucumber::internal`), together
with the error taxonomy of
`src/include/cucumber-cpp/internal/utils/CucumberExpression.hpp`.

Expressions and emitted regex text are `List Char` (C++ `std::string`);
`size_t` arithmetic that can wrap is written with an explicit `% 2 ^ 64`.
Loops of the C++ code become fuel-indexed recursions; every call site
supplies fuel that is an upper bound on the number of iterations of the
corresponding C++ loop, so `outOfFuel` is never produced by `transform`.
An out-of-bounds `std::string` read (undefined behavior in C++) is modelled
by the distinguished outcome `undefinedBehavior`, which is not an exception
and is therefore not rewrapped by the catch-all in `transform`.
-/

namespace Cukex

/-- The character `{` (written via its code point to keep it out of string
literals). -/
def lbrace : Char := Char.ofNat 123

/-- The character `}`. -/
def rbrace : Char := Char.ofNat 125

/-- The C++ metacharacter set `".^$|()[]{}*+?\\"` used both by the literal
branch of `parse` and by `escapeRegexChars`. -/
def regexSpecialChars : List Char :=
  ['.', '^', '$', '|', '(', ')', '[', ']', lbrace, rbrace, '*', '+', '?', '\\']

/-- The characters that may follow a backslash to form an escape sequence in
`parse`: `( ) { } /`. -/
def escapableChars : List Char := ['(', ')', lbrace, rbrace, '/']

/-- The exception taxonomy of `CucumberExpression.hpp`.  `cucumberExpression`
is the base class `CucumberExpressionpressionException` constructed directly
with a message; the other constructors mirror the derived classes used by the
code.  `emptyOptional` mirrors `EmptyOptionalException`, which is declared in
the header but never thrown by the implementation.  `undefinedBehavior` and
`outOfFuel` are artifacts of the embedding: the former marks C++ undefined
behavior (an out-of-range `std::string` access), the latter marks fuel
exhaustion and is unreachable from `transform`. -/
inductive CukexError where
  | cucumberExpression (message : String)
  | unknownParameterType (paramType : String)
  | unclosedParameter (message : String)
  | unclosedOptional (message : String)
  | unmatchedClosingBrace
  | unmatchedClosingParenthesis
  | emptyOptional (column : Int)
  | emptyExpression
  | undefinedBehavior (description : String)
  | outOfFuel
deriving DecidableEq

/-- `what()` of each exception, mirroring the message each constructor in the
header builds. -/
def CukexError.message : CukexError → String
  | .cucumberExpression m => m
  | .unknownParameterType p => "Unknown parameter type: \x7b" ++ p ++ "\x7d"
  | .unclosedParameter m => m
  | .unclosedOptional m => m
  | .unmatchedClosingBrace =>
      "Unexpected closing brace \x27\x7d\x27 without matching opening brace"
  | .unmatchedClosingParenthesis =>
      "Unexpected closing parenthesis \x27)\x27 without matching opening parenthesis"
  | .emptyOptional col =>
      if col ≥ 0 then
        "An optional must contain some text (at column " ++ toString col ++ ")"
      else "An optional must contain some text"
  | .emptyExpression => "Cucumber expression cannot be empty"
  | .undefinedBehavior d => d
  | .outOfFuel => "out of fuel"

/-- The built-in parameter type table `PARAMETER_TYPES` of
`getParameterTypes()` (a `std::map` with unique keys, here an association
list with unique keys). -/
def PARAMETER_TYPES : List (String × String) :=
  [("int", "-?\\d+"),
   ("float", "(?=.*\\d.*)[-+]?\\d*(?:\\.(?=\\d.*))?\\d*(?:\\d+[E][+-]?\\d+)?"),
   ("word", "[^\\s]+"),
   ("string", "\"([^\"\\\\]*(\\\\.[^\"\\\\]*)*)\"|\x27([^\x27\\\\]*(\\\\.[^\x27\\\\]*)*)\x27"),
   ("bigdecimal", "(?=.*\\d.*)[-+]?\\d*(?:\\.(?=\\d.*))?\\d*(?:\\d+[E][+-]?\\d+)?"),
   ("double", "(?=.*\\d.*)[-+]?\\d*(?:\\.(?=\\d.*))?\\d*(?:\\d+[E][+-]?\\d+)?"),
   ("biginteger", "-?\\d+"),
   ("byte", "-?\\d+"),
   ("short", "-?\\d+"),
   ("long", "-?\\d+"),
   ("", ".*")]

/-- Exact-match, case-sensitive lookup in a registry (`map.find`). -/
def lookupReg (reg : List (String × String)) (k : String) : Option String :=
  (reg.find? (fun p => p.1 == k)).map (fun p => p.2)

/-- Insert-or-overwrite of one (name, fragment) pair (`std::map` insertion
semantics on an association list with unique keys). -/
def insertReg (reg : List (String × String)) (n r : String) :
    List (String × String) :=
  (n, r) :: reg.filter (fun p => p.1 ≠ n)

/-- An external custom parameter-type record: an object with optional `name`
and `regexp` fields (a field that is absent is `none`). -/
structure CustomTypeDefinition where
  name : Option String
  regexp : Option String
deriving DecidableEq

/-- Modelled from the spec: the custom-definition merge of §4.1 is absent from
the sources under src/ (`getParameterTypes` returns only the built-in table;
only the test suites and the spec describe merging).  Spec §4.1: "for each
external entry with non-empty `name` and `regexp`, insert/overwrite; entries
missing a field are skipped without error; an unparsable or non-array
configuration source degrades to `no custom definitions` (built-ins remain
intact)".  `none` as the source models the unparsable / non-array case. -/
def mergeCustomTypes (builtins : List (String × String))
    (source : Option (List CustomTypeDefinition)) : List (String × String) :=
  match source with
  | none => builtins
  | some defs =>
      defs.foldl (fun reg d =>
        match d.name, d.regexp with
        | some n, some r => if n ≠ "" ∧ r ≠ "" then insertReg reg n r else reg
        | _, _ => reg) builtins

/-- In-bounds character access `expression[i]` (always used under an
`i < length` guard, matching the guarded uses in the C++ code). -/
def charAt (e : List Char) (i : Nat) : Char := e.getD i ' '

/-- Index of the first occurrence of `t` in a list, or `none`. -/
def findIdxFrom (t : Char) : List Char → Option Nat
  | [] => none
  | c :: rest => if c = t then some 0 else (findIdxFrom t rest).map (· + 1)

/-- `std::string::find(c, pos)`: index of the first occurrence of `c` at a
position `≥ pos`, or `none` for `npos`. -/
def findFrom (e : List Char) (t : Char) (pos : Nat) : Option Nat :=
  match findIdxFrom t (e.drop pos) with
  | some j => some (pos + j)
  | none => none

/-- `std::string::rfind(c)`: index of the last occurrence of `c`. -/
def rfindChar (l : List Char) (t : Char) : Option Nat :=
  match findIdxFrom t l.reverse with
  | some j => some (l.length - 1 - j)
  | none => none

/-- `escapeRegexChars`: prefix every regex metacharacter with a backslash. -/
def escapeRegexChars : List Char → List Char
  | [] => []
  | c :: t =>
      (if c ∈ regexSpecialChars then ['\\', c] else [c]) ++ escapeRegexChars t

/-- The structural validator scan of `cukex::transform` (lines 358-394).
`prev` is `expression[i-1]` (`none` at `i = 0`); a character whose
predecessor is a backslash is skipped.  At scan end, a nonzero brace depth is
reported before a nonzero paren depth, as in the code. -/
def validateScan : Option Char → List Char → Int → Int →
    Except CukexError Unit
  | _, [], bd, pd =>
      if bd ≠ 0 then
        .error (.unclosedParameter "Unclosed parameter type: unmatched braces")
      else if pd ≠ 0 then
        .error (.unclosedOptional "Unclosed optional text: unmatched parentheses")
      else .ok ()
  | prev, c :: rest, bd, pd =>
      if prev = some '\\' then validateScan (some c) rest bd pd
      else if c = lbrace then
        if bd + 1 > 1 then
          .error (.cucumberExpression "Nested parameter types are not allowed")
        else validateScan (some c) rest (bd + 1) pd
      else if c = rbrace then
        if bd - 1 < 0 then .error .unmatchedClosingBrace
        else validateScan (some c) rest (bd - 1) pd
      else if c = '(' then validateScan (some c) rest bd (pd + 1)
      else if c = ')' then
        if pd - 1 < 0 then .error .unmatchedClosingParenthesis
        else validateScan (some c) rest bd (pd - 1)
      else validateScan (some c) rest bd pd

/-- `parseOpenBrace`: find the closing `}` from `pos`, look the enclosed name
up in the registry, and emit `(fragment)`; returns the new output and the new
cursor. -/
def parseOpenBrace (reg : List (String × String)) (e : List Char) (pos : Nat)
    (result : List Char) : Except CukexError (List Char × Nat) :=
  match findFrom e rbrace pos with
  | none =>
      .error (.unclosedParameter
        ("Unclosed parameter type: missing \x27\x7d\x27 at position " ++ toString pos))
  | some closePos =>
      match lookupReg reg (String.mk ((e.drop (pos + 1)).take (closePos - pos - 1))) with
      | none =>
          .error (.unknownParameterType
            (String.mk ((e.drop (pos + 1)).take (closePos - pos - 1))))
      | some fragment =>
          .ok (result ++ ('(' :: fragment.data ++ [')']), closePos + 1)

/-- `parseOpenParenthesis`: find the closing `)` from `pos`; an empty enclosed
text raises the generic base exception (with the position in the message, not
the `EmptyOptionalException` kind); otherwise emit `(?:escapedText)?`. -/
def parseOpenParenthesis (e : List Char) (pos : Nat) (result : List Char) :
    Except CukexError (List Char × Nat) :=
  match findFrom e ')' pos with
  | none =>
      .error (.unclosedOptional
        ("Unclosed optional text: missing \x27)\x27 at position " ++ toString pos))
  | some closePos =>
      if (e.drop (pos + 1)).take (closePos - pos - 1) = [] then
        .error (.cucumberExpression
          ("Empty optional text is not allowed at position " ++ toString pos))
      else
        .ok (result ++ ("(?:".data ++
              escapeRegexChars ((e.drop (pos + 1)).take (closePos - pos - 1)) ++
              ")?".data),
             closePos + 1)

/-- `parseAlternativeText`: render one collected alternative, re-expanding an
optional span it contains into `(?:...)?` (an empty one raises the generic
base exception, without a position) and escaping metacharacters. -/
def parseAlternativeText : Nat → List Char → Nat → List Char →
    Except CukexError (List Char)
  | 0, _, _, _ => .error .outOfFuel
  | fuel + 1, text, i, result =>
      if i < text.length then
        let c := charAt text i
        if c = '(' then
          match findFrom text ')' i with
          | some closePos =>
              let optionalContent := (text.drop (i + 1)).take (closePos - i - 1)
              if optionalContent = [] then
                .error (.cucumberExpression "Empty optional text is not allowed")
              else
                parseAlternativeText fuel text (closePos + 1)
                  (result ++ ("(?:".data ++ escapeRegexChars optionalContent ++ ")?".data))
          | none =>
              parseAlternativeText fuel text (i + 1) (result ++ ['\\', '('])
        else
          parseAlternativeText fuel text (i + 1)
            (result ++ (if c ∈ regexSpecialChars then ['\\', c] else [c]))
      else .ok result

/-- The rendering loop of `parseAlternatives`: each alternative through
`parseAlternativeText`, joined with `|`. -/
def renderAlternativesAux : List (List Char) → Except CukexError (List Char)
  | [] => .ok []
  | t :: ts =>
      match parseAlternativeText (t.length + 1) t 0 [] with
      | .error err => .error err
      | .ok r =>
          match renderAlternativesAux ts with
          | .error err => .error err
          | .ok rest => .ok (if ts = [] then r else r ++ '|' :: rest)

/-- `(?:` ++ joined alternatives ++ `)`. -/
def renderAlternatives (alts : List (List Char)) :
    Except CukexError (List Char) :=
  match renderAlternativesAux alts with
  | .error err => .error err
  | .ok joined => .ok ("(?:".data ++ joined ++ [')'])

/-- The inner backward while loop of `collectAlternativesFromHere` (lines
138-145): walk left from `i` accumulating characters until the parenthesis
depth returns to zero, or index 0 is processed.  Returns the accumulated text
and the index at which the outer loop resumes. -/
def parenBack : Nat → List Char → Nat → Int → List Char →
    Except CukexError (List Char × Nat)
  | 0, _, _, _, _ => .error .outOfFuel
  | fuel + 1, e, i, depth, current =>
      if depth ≤ 0 then .ok (current, i)
      else
        match e.get? i with
        | none =>
            .error (.undefinedBehavior
              ("std::string index out of range: " ++ toString i))
        | some pc =>
            let cur := pc :: current
            let d := if pc = ')' then depth + 1
                     else if pc = '(' then depth - 1 else depth
            if i = 0 then .ok (cur, 0)
            else parenBack fuel e (i - 1) d cur

/-- The backward loop of `collectAlternativesFromHere` (lines 129-155):
starting from `startPos`, walk left to recover the word before the first `/`,
stopping at a space or `{` (exclusive) or an opening parenthesis, and pulling
in a whole parenthesized span when a `)` is met.  An index outside the string
is an out-of-range `std::string` read: undefined behavior in C++. -/
def collectBack : Nat → List Char → Nat → List Char →
    Except CukexError (List Char)
  | 0, _, _, _ => .error .outOfFuel
  | fuel + 1, e, i, current =>
      match e.get? i with
      | none =>
          .error (.undefinedBehavior
            ("std::string index out of range: " ++ toString i))
      | some c =>
          if c = ' ' ∨ c = lbrace then .ok current
          else if c = ')' then
            let cur := ')' :: current
            if i = 0 then .ok cur
            else
              match parenBack i e (i - 1) 1 cur with
              | .error err => .error err
              | .ok (cur', i') => collectBack fuel e i' cur'
          else if c = '(' then .ok current
          else
            let cur := c :: current
            if i = 0 then .ok cur
            else collectBack fuel e (i - 1) cur

/-- The forward loop of `collectAlternativesFromHere` (lines 164-220): from
`fwdPos`, collect further `/`-separated alternatives until a space or `{`, a
`(` directly after a separator, or the end of the expression.  A `(` inside an
alternative pulls in everything up to the matching `)`.  An escaped slash
`\/` advances past both characters; the C++ code appends the slash to a local
`allWords` string that is never read afterwards, so the slash is dropped from
the alternative. -/
def collectForward : Nat → List Char → Nat → List Char → List (List Char) →
    Except CukexError (List (List Char) × Nat)
  | 0, _, _, _, _ => .error .outOfFuel
  | fuel + 1, e, fwdPos, current, alts =>
      if fwdPos < e.length then
        let c := charAt e fwdPos
        if c = ' ' ∨ c = lbrace then
          .ok ((if current = [] then alts else alts ++ [current]), fwdPos)
        else if c = '(' ∧ current = [] then
          .ok ((if current = [] then alts else alts ++ [current]), fwdPos)
        else if c = '(' then
          match findFrom e ')' fwdPos with
          | some parenEnd =>
              collectForward fuel e (parenEnd + 1)
                (current ++ (e.drop fwdPos).take (parenEnd + 1 - fwdPos)) alts
          | none => collectForward fuel e (fwdPos + 1) (current ++ [c]) alts
        else if c = '\\' ∧ fwdPos + 1 < e.length ∧ charAt e (fwdPos + 1) = '/' then
          collectForward fuel e (fwdPos + 2) current alts
        else if c = '/' then
          if current ≠ [] then
            collectForward fuel e (fwdPos + 1) [] (alts ++ [current])
          else collectForward fuel e (fwdPos + 1) current alts
        else collectForward fuel e (fwdPos + 1) (current ++ [c]) alts
      else .ok ((if current = [] then alts else alts ++ [current]), fwdPos)

/-- `collectAlternativesFromHere(startPos)`: backtrack for the word before
the first `/`, then collect forward from `startPos + 1`; returns the
alternatives and the final cursor (`pos = fwdPos`).  Index arithmetic is
`size_t`, hence the explicit `% 2 ^ 64`. -/
def collectAlternativesFromHere (e : List Char) (startPos : Nat) :
    Except CukexError (List (List Char) × Nat) :=
  match collectBack (startPos + 3) e startPos [] with
  | .error err => .error err
  | .ok current =>
      let alternatives := if current ≠ [] then [current] else []
      collectForward (e.length + 1) e ((startPos + 1) % 18446744073709551616)
        [] alternatives

/-- `parseAlternatives` (lines 321-349).  The initial word-boundary loop only
computes the unused `wordEnd` but evaluates `result.back()`, which is
undefined behavior when the output is empty and `pos > 0`.  `pos - 1` is
computed in `size_t`, so at `pos = 0` it wraps to `2 ^ 64 - 1` and the
backward collection reads out of bounds.  With more than one alternative the
trailing word of the output (back to the last space, or all of it) is excised
and the rendered group is spliced in its place. -/
def parseAlternatives (e : List Char) (pos : Nat) (result : List Char) :
    Except CukexError (List Char × Nat) :=
  if pos > 0 ∧ result = [] then
    .error (.undefinedBehavior "std::string::back() on empty string")
  else
    match collectAlternativesFromHere e
        ((pos + 18446744073709551615) % 18446744073709551616) with
    | .error err => .error err
    | .ok (alternatives, newPos) =>
        if alternatives.length > 1 then
          let base :=
            match rfindChar result ' ' with
            | some lastSpace => result.take (lastSpace + 1)
            | none => []
          match renderAlternatives alternatives with
          | .error err => .error err
          | .ok grp => .ok (base ++ grp, newPos)
        else .ok (result, newPos)

/-- The main loop of `CucumberExpressionpressionParser::parse` (lines 75-119):
dispatch on escape, `{`, `(`, `/`, else literal (metacharacters prefixed with
a backslash).  The escape branch (`parseEscaping`) emits a backslash before
the escaped character only when it is `{ } ( )`; `\/` becomes a bare `/`. -/
def parseLoop (reg : List (String × String)) : Nat → List Char → Nat →
    List Char → Except CukexError (List Char)
  | 0, _, _, _ => .error .outOfFuel
  | fuel + 1, e, pos, result =>
      if pos < e.length then
        if charAt e pos = '\\' ∧ pos + 1 < e.length ∧
            charAt e (pos + 1) ∈ escapableChars then
          parseLoop reg fuel e (pos + 2)
            (if charAt e (pos + 1) = lbrace ∨ charAt e (pos + 1) = rbrace ∨
                charAt e (pos + 1) = '(' ∨ charAt e (pos + 1) = ')' then
              result ++ ['\\', charAt e (pos + 1)]
            else result ++ [charAt e (pos + 1)])
        else if charAt e pos = lbrace then
          match parseOpenBrace reg e pos result with
          | .error err => .error err
          | .ok (result', pos') => parseLoop reg fuel e pos' result'
        else if charAt e pos = '(' then
          match parseOpenParenthesis e pos result with
          | .error err => .error err
          | .ok (result', pos') => parseLoop reg fuel e pos' result'
        else if charAt e pos = '/' then
          match parseAlternatives e pos result with
          | .error err => .error err
          | .ok (result', pos') => parseLoop reg fuel e pos' result'
        else
          parseLoop reg fuel e (pos + 1)
            (result ++ (if charAt e pos ∈ regexSpecialChars then
              ['\\', charAt e pos] else [charAt e pos]))
      else .ok result

/-- The catch-all in `cukex::transform` (lines 410-412): any exception that
escapes the parsing stage is rewrapped into the generic base exception with
the prefix "Invalid Cucumber expression: ".  Undefined behavior and fuel
exhaustion are not exceptions and pass through. -/
def rewrapParserError : CukexError → CukexError
  | .undefinedBehavior d => .undefinedBehavior d
  | .outOfFuel => .outOfFuel
  | err => .cucumberExpression ("Invalid Cucumber expression: " ++ err.message)

/-- `cukex::transform` generalized over the parameter-type registry: empty
check, validator scan, parse, anchoring with `^`/`$`.  The final
`validateRegex` self-check (recompiling the produced pattern with
`std::regex`) belongs to the external regex engine and is modelled as
succeeding. -/
def transformWith (reg : List (String × String)) (e : List Char) :
    Except CukexError (List Char) :=
  if e = [] then .error .emptyExpression
  else
    match validateScan none e 0 0 with
    | .error err => .error err
    | .ok _ =>
        match parseLoop reg (e.length + 1) e 0 [] with
        | .error err => .error (rewrapParserError err)
        | .ok body => .ok ('^' :: (body ++ ['$']))

/-- `cukex::transform` as in the code: the registry is the built-in table. -/
def transform (e : List Char) : Except CukexError (List Char) :=
  transformWith PARAMETER_TYPES e

/-- The custom-definition list of the C2 scenario: one well-formed entry and
two malformed ones (missing `name`, missing `regexp`). -/
def colorCustomDefs : List CustomTypeDefinition :=
  [⟨some "color", some "red|blue"⟩, ⟨none, some "red|blue"⟩,
   ⟨some "badentry", none⟩]

/-- The registry obtained by merging `colorCustomDefs` into the built-ins. -/
def colorMerged : List (String × String) :=
  mergeCustomTypes PARAMETER_TYPES (some colorCustomDefs)

/-- State of the previous-character tracker after the validator has scanned a
block of characters. -/
def lastPrev : List Char → Option Char → Option Char
  | [], prev => prev
  | c :: t, _ => lastPrev t (some c)

/-! ## Helper lemmas -/

theorem charAt_lt_mem {e : List Char} {i : Nat} (h : i < e.length) :
    charAt e i ∈ e := by
  rw [charAt, List.getD_eq_getElem e ' ' h]
  exact List.getElem_mem h

theorem charAt_cons_drop {e : List Char} {pos : Nat} (h : pos < e.length) :
    e.drop pos = charAt e pos :: e.drop (pos + 1) := by
  rw [charAt, List.getD_eq_getElem e ' ' h]
  exact List.drop_eq_getElem_cons h

theorem charAt_append_left {p : List Char} (q : List Char) {i : Nat}
    (h : i < p.length) : charAt (p ++ q) i = charAt p i := by
  induction p generalizing i with
  | nil => simp at h
  | cons c t ih =>
      cases i with
      | zero => rfl
      | succ j =>
          simp only [List.length_cons, Nat.succ_lt_succ_iff] at h
          simpa [charAt] using ih h

theorem charAt_append_cons (p : List Char) (c : Char) (r : List Char) :
    charAt (p ++ c :: r) p.length = c := by
  induction p with
  | nil => rfl
  | cons a t ih => simpa [charAt] using ih

theorem findIdxFrom_append_cons {t : Char} {p : List Char}
    (h : ∀ c ∈ p, c ≠ t) (r : List Char) :
    findIdxFrom t (p ++ t :: r) = some p.length := by
  induction p with
  | nil => simp [findIdxFrom]
  | cons a q ih =>
      have ha : a ≠ t := h a (List.mem_cons_self a q)
      have hq : ∀ c ∈ q, c ≠ t := fun c hc => h c (List.mem_cons_of_mem a hc)
      simp [findIdxFrom, ha, ih hq]

theorem escapeRegexChars_append (l m : List Char) :
    escapeRegexChars (l ++ m) = escapeRegexChars l ++ escapeRegexChars m := by
  induction l with
  | nil => simp [escapeRegexChars]
  | cons c t ih => simp [escapeRegexChars, ih]

theorem lastPrev_ne {x : Char} {p : List Char} {prev : Option Char}
    (hp : ∀ c ∈ p, c ≠ x) (hprev : prev ≠ some x) :
    lastPrev p prev ≠ some x := by
  induction p generalizing prev with
  | nil => exact hprev
  | cons c t ih =>
      exact ih (fun d hd => hp d (List.mem_cons_of_mem c hd))
        (by simpa using hp c (List.mem_cons_self c t))

/-- The validator scan passes over a block of characters that are none of
`{ } ( )` without touching either depth, whether or not any of them is
skipped by the backslash rule. -/
theorem validateScan_no_special_run {p : List Char}
    (h : ∀ c ∈ p, c ≠ lbrace ∧ c ≠ rbrace ∧ c ≠ '(' ∧ c ≠ ')')
    (r : List Char) (prev : Option Char) (bd pd : Int) :
    validateScan prev (p ++ r) bd pd = validateScan (lastPrev p prev) r bd pd := by
  induction p generalizing prev with
  | nil => rfl
  | cons c t ih =>
      have hc := h c (List.mem_cons_self c t)
      have ht : ∀ d ∈ t, d ≠ lbrace ∧ d ≠ rbrace ∧ d ≠ '(' ∧ d ≠ ')' :=
        fun d hd => h d (List.mem_cons_of_mem c hd)
      show validateScan prev (c :: (t ++ r)) bd pd = _
      by_cases hprev : prev = some '\\'
      · rw [validateScan, if_pos hprev]
        exact ih ht (some c)
      · rw [validateScan, if_neg hprev, if_neg hc.1, if_neg hc.2.1,
          if_neg hc.2.2.1, if_neg hc.2.2.2]
        exact ih ht (some c)

/-- The parser emits a block of plain literal characters (none of which is a
backslash, `{`, `(` or `/`) as their metachar-escaped images, consuming one
unit of fuel per character. -/
theorem parseLoop_literal_run (reg : List (String × String)) (e : List Char) :
    ∀ (k fuel pos : Nat) (res : List Char), pos + k ≤ e.length →
      (∀ j, j < k → charAt e (pos + j) ≠ '\\' ∧ charAt e (pos + j) ≠ lbrace ∧
        charAt e (pos + j) ≠ '(' ∧ charAt e (pos + j) ≠ '/') →
      parseLoop reg (fuel + k) e pos res =
        parseLoop reg fuel e (pos + k) (res ++ escapeRegexChars ((e.drop pos).take k))
  | 0, fuel, pos, res, _, _ => by simp [escapeRegexChars]
  | k + 1, fuel, pos, res, hlen, hchars => by
      have hpos : pos < e.length := by omega
      have hc := hchars 0 (Nat.succ_pos k)
      rw [Nat.add_zero] at hc
      have hstep : parseLoop reg (fuel + (k + 1)) e pos res =
          parseLoop reg (fuel + k) e (pos + 1)
            (res ++ (if charAt e pos ∈ regexSpecialChars
              then ['\\', charAt e pos] else [charAt e pos])) := by
        show parseLoop reg ((fuel + k) + 1) e pos res = _
        rw [parseLoop]
        simp only [hpos, if_true]
        rw [if_neg (fun hand => hc.1 hand.1), if_neg hc.2.1, if_neg hc.2.2.1,
          if_neg hc.2.2.2]
      rw [hstep, parseLoop_literal_run reg e k fuel (pos + 1) _ (by omega)
        (fun j hj => by
          have := hchars (j + 1) (by omega)
          rwa [show pos + (j + 1) = pos + 1 + j by omega] at this)]
      have harr : pos + 1 + k = pos + (k + 1) := by omega
      have hwin : (e.drop pos).take (k + 1) =
          charAt e pos :: (e.drop (pos + 1)).take k := by
        rw [charAt_cons_drop hpos, List.take_succ_cons]
      rw [harr, hwin, List.append_assoc]
      simp [escapeRegexChars]

/-- One step of the parse loop at an unescaped `{`: dispatch to
`parseOpenBrace`. -/
theorem parseLoop_step_brace (reg : List (String × String)) (fuel : Nat)
    (e : List Char) (pos : Nat) (res : List Char)
    (hpos : pos < e.length) (hc : charAt e pos = lbrace) :
    parseLoop reg (fuel + 1) e pos res =
      match parseOpenBrace reg e pos res with
      | .error err => .error err
      | .ok (result', pos') => parseLoop reg fuel e pos' result' := by
  rw [parseLoop, if_pos hpos, hc,
    if_neg (fun hand => absurd hand.1 (by decide)), if_pos rfl]

/-- One step of the parse loop at an unescaped `(`: dispatch to
`parseOpenParenthesis`. -/
theorem parseLoop_step_paren (reg : List (String × String)) (fuel : Nat)
    (e : List Char) (pos : Nat) (res : List Char)
    (hpos : pos < e.length) (hc : charAt e pos = '(') :
    parseLoop reg (fuel + 1) e pos res =
      match parseOpenParenthesis e pos res with
      | .error err => .error err
      | .ok (result', pos') => parseLoop reg fuel e pos' result' := by
  rw [parseLoop, if_pos hpos, hc,
    if_neg (fun hand => absurd hand.1 (by decide)),
    if_neg (by decide), if_pos rfl]

/-! ## Claim theorems -/

/-- C1, counterexample: `transform("{unknown}")` does not surface the
`UnknownParameterType` kind to the caller; the catch-all of `transform`
rewraps it into the generic base expression error, whose message prefixes
"Invalid Cucumber expression: ". -/
theorem c1_counterexample :
    transform "\x7bunknown\x7d".data =
      .error (.cucumberExpression
        "Invalid Cucumber expression: Unknown parameter type: \x7bunknown\x7d") := rfl

/-- C2: after merging the custom definition (name "color", regexp "red|blue")
together with two malformed entries (one missing `name`, one missing
`regexp`), a registry lookup of "color" returns "red|blue", so
`transform("{color}")` succeeds and emits the fragment as a capturing group;
the malformed entries are skipped (no "badentry" key appears) and every
built-in lookup is unaffected.  The merge itself is modelled from the spec
(§4.1), since the sources under src/ contain only the built-in table. -/
theorem c2_custom_merge :
    lookupReg colorMerged "color" = some "red|blue" ∧
    transformWith colorMerged "\x7bcolor\x7d".data = .ok "^(red|blue)$".data ∧
    lookupReg colorMerged "badentry" = none ∧
    PARAMETER_TYPES.all (fun p => lookupReg colorMerged p.1 == some p.2) = true :=
  ⟨rfl, rfl, rfl, rfl⟩

/-- C4: `transform("a/b c/d/e")` returns `^(?:a|b) (?:c|d|e)$`: each run of
`/`-separated words is excised from the already-emitted output and replaced
by one non-capturing group joining the alternatives with `|`. -/
theorem c4_alternation_example :
    transform "a/b c/d/e".data = .ok "^(?:a|b) (?:c|d|e)$".data := rfl

/-- C5, counterexample: the claim ranges over every expression containing
none of `{ ( ) / \`, but `"\x7d"` (a lone closing brace) is such an
expression and `transform` rejects it with UnmatchedClosingBrace instead of
returning `"^\\\x7d$"`, and `""` is such an expression and `transform`
rejects it with EmptyExpression. -/
theorem c5_counterexample :
    transform "\x7d".data = .error .unmatchedClosingBrace ∧
    transform "".data = .error .emptyExpression := ⟨rfl, rfl⟩

/-- C6, counterexample: `transform("()")` fails with the generic base
expression error (message "Invalid Cucumber expression: Empty optional text
is not allowed at position 0"), not with the declared EmptyOptional error
kind; and the validated expression `"{a()b}"`, which contains the
two-character sequence `()` with an unescaped opening parenthesis, fails
with an unknown-parameter message instead, because the braces consume the
parentheses as part of a parameter name. -/
theorem c6_counterexample :
    transform "()".data =
      .error (.cucumberExpression
        "Invalid Cucumber expression: Empty optional text is not allowed at position 0") ∧
    transform "\x7ba()b\x7d".data =
      .error (.cucumberExpression
        "Invalid Cucumber expression: Unknown parameter type: \x7ba()b\x7d") :=
  ⟨rfl, rfl⟩

/-- C7: `transform("test (")` fails with UnclosedOptional, `transform("{int")`
with UnclosedParameter, `transform("}")` with UnmatchedClosingBrace and
`transform(")")` with UnmatchedClosingParenthesis: the validator maps an
end-of-scan brace imbalance to UnclosedParameter, a paren imbalance to
UnclosedOptional, and a mid-scan negative depth to the corresponding
unmatched-closing error. -/
theorem c7_validator_errors :
    transform "test (".data =
      .error (.unclosedOptional "Unclosed optional text: unmatched parentheses") ∧
    transform "\x7bint".data =
      .error (.unclosedParameter "Unclosed parameter type: unmatched braces") ∧
    transform "\x7d".data = .error .unmatchedClosingBrace ∧
    transform ")".data = .error .unmatchedClosingParenthesis :=
  ⟨rfl, rfl, rfl, rfl⟩

/-- C8, counterexample: in the four-character expression `a\\(` the `(` is
immediately preceded by a backslash that is itself escaped, so by the claim
it should still count toward the parenthesis depth and the expression should
be rejected as unclosed; the validator instead skips any character whose
predecessor is a backslash, so the expression is accepted and transformed to
`^a\\\($`. -/
theorem c8_counterexample :
    transform "a\\\\(".data = .ok "^a\\\\\\($".data := rfl

/-- C8 (amended): the validation scan excludes a character from depth
tracking exactly when the immediately preceding character is a backslash,
whether or not that backslash is itself escaped: the `(` of the four-character
`a\\(` and of the three-character `a\(` is skipped (both accepted), while an
unpreceded `(` still counts (`a(` is rejected as unclosed). -/
theorem c8_skip_any_backslash :
    transform "a\\\\(".data = .ok "^a\\\\\\($".data ∧
    transform "a\\(".data = .ok "^a\\($".data ∧
    transform "a(".data =
      .error (.unclosedOptional "Unclosed optional text: unmatched parentheses") :=
  ⟨rfl, rfl, rfl⟩

/-- C3: for every input accepted by the validator on which `transform`
returns a string, that string is exactly the parser output wrapped once in
`^`/`$`: it starts with `^`, ends with `$`, and each anchor is added exactly
once (no double-anchoring on any input). -/
theorem c3_anchored (e s : List Char) (h : transform e = .ok s) :
    ∃ body, parseLoop PARAMETER_TYPES (e.length + 1) e 0 [] = .ok body ∧
      s = '^' :: (body ++ ['$']) := by
  unfold transform transformWith at h
  by_cases he : e = []
  · rw [if_pos he] at h
    simp at h
  · rw [if_neg he] at h
    cases hv : validateScan none e 0 0 with
    | error err => rw [hv] at h; simp at h
    | ok u =>
        rw [hv] at h
        cases hp : parseLoop PARAMETER_TYPES (e.length + 1) e 0 [] with
        | error err => rw [hp] at h; simp at h
        | ok body =>
            rw [hp] at h
            simp only [Except.ok.injEq] at h
            exact ⟨body, rfl, h.symm⟩

/-- C3 witness at the concrete input `"a"`. -/
theorem c3_witness :
    transform "a".data = .ok "^a$".data ∧
    ∃ body, parseLoop PARAMETER_TYPES ("a".data.length + 1) "a".data 0 [] = .ok body ∧
      "^a$".data = '^' :: (body ++ ['$']) :=
  ⟨rfl, c3_anchored "a".data "^a$".data rfl⟩

/-- C5 (amended): for every non-empty expression containing none of the
characters `{ } ( ) / \`, `transform` succeeds and its output is `^` followed
by the expression with each regex metacharacter prefixed by a backslash,
followed by `$`. -/
theorem c5_literal_roundtrip (e : List Char) (hne : e ≠ [])
    (h : ∀ c ∈ e, c ≠ lbrace ∧ c ≠ rbrace ∧ c ≠ '(' ∧ c ≠ ')' ∧
      c ≠ '/' ∧ c ≠ '\\') :
    transform e = .ok ('^' :: (escapeRegexChars e ++ ['$'])) := by
  unfold transform transformWith
  rw [if_neg hne]
  have hv : validateScan none e 0 0 = .ok () := by
    have hrun := validateScan_no_special_run (p := e)
      (fun c hc => ⟨(h c hc).1, (h c hc).2.1, (h c hc).2.2.1, (h c hc).2.2.2.1⟩)
      [] none 0 0
    rw [List.append_nil] at hrun
    rw [hrun, validateScan, if_neg (by norm_num), if_neg (by norm_num)]
  rw [hv]
  have hrun := parseLoop_literal_run PARAMETER_TYPES e e.length 1 0 []
    (by omega)
    (fun j hj => by
      have hm : charAt e (0 + j) ∈ e := charAt_lt_mem (by omega)
      exact ⟨(h _ hm).2.2.2.2.2, (h _ hm).1, (h _ hm).2.2.1, (h _ hm).2.2.2.2.1⟩)
  rw [Nat.add_comm 1 e.length] at hrun
  rw [hrun, List.drop_zero, List.take_length, Nat.zero_add, List.nil_append,
    parseLoop, if_neg (lt_irrefl e.length)]

/-- C5 witness at the concrete input `"array [0]"`. -/
theorem c5_witness :
    transform "array [0]".data = .ok "^array \\[0\\]$".data :=
  c5_literal_roundtrip "array [0]".data (by decide) (by decide)

/-- C10: a backslash whose follower is not one of `( ) { } /` — including a
lone backslash at the end of the expression — is not an error: the parse loop
emits it as an escaped literal backslash (the two characters `\\`) and
continues at the next position, processing the following character, if any,
independently. -/
theorem c10_backslash_literal (reg : List (String × String)) (fuel : Nat)
    (e : List Char) (pos : Nat) (res : List Char)
    (hpos : pos < e.length) (hc : charAt e pos = '\\')
    (hnext : pos + 1 < e.length → charAt e (pos + 1) ∉ escapableChars) :
    parseLoop reg (fuel + 1) e pos res =
      parseLoop reg fuel e (pos + 1) (res ++ ['\\', '\\']) := by
  rw [parseLoop, if_pos hpos, hc,
    if_neg (fun hand => hnext hand.2.1 hand.2.2),
    if_neg (by decide), if_neg (by decide), if_neg (by decide),
    if_pos (by decide)]

/-- C10 witness: at `['\\', '[']`, position 0, the backslash is emitted as
`\\` and the scan moves to position 1. -/
theorem c10_witness :
    parseLoop PARAMETER_TYPES 6 ['\\', '['] 0 [] =
      parseLoop PARAMETER_TYPES 5 ['\\', '['] 1 ['\\', '\\'] :=
  c10_backslash_literal PARAMETER_TYPES 5 ['\\', '['] 0 []
    (by decide) (by decide) (by decide)

/-- C1 (amended): for every parameter placeholder `{name}` whose name
contains none of `{ } ( ) \` and is absent from the registry, the parser
raises the specific UnknownParameterType error carrying that name, but the
top-level catch in `transform` rewraps it into the generic base expression
error with message "Invalid Cucumber expression: Unknown parameter type:
{name}": the specific kind is downgraded on the way to the caller and only
the message text retains the name. -/
theorem c1_unknown_parameter_rewrapped (name : List Char)
    (hchars : ∀ c ∈ name, c ≠ lbrace ∧ c ≠ rbrace ∧ c ≠ '(' ∧ c ≠ ')' ∧ c ≠ '\\')
    (hmiss : lookupReg PARAMETER_TYPES (String.mk name) = none) :
    transform (lbrace :: (name ++ [rbrace])) =
      .error (.cucumberExpression ("Invalid Cucumber expression: " ++
        ("Unknown parameter type: \x7b" ++ String.mk name ++ "\x7d"))) := by
  have hv : validateScan none (lbrace :: (name ++ [rbrace])) 0 0 = .ok () := by
    rw [validateScan, if_neg (by simp), if_pos rfl, if_neg (by norm_num),
      validateScan_no_special_run
        (fun c hc => ⟨(hchars c hc).1, (hchars c hc).2.1, (hchars c hc).2.2.1,
          (hchars c hc).2.2.2.1⟩) [rbrace] (some lbrace) (0 + 1) 0,
      validateScan,
      if_neg (lastPrev_ne (fun c hc => (hchars c hc).2.2.2.2) (by decide)),
      if_neg (by decide), if_pos rfl, if_neg (by norm_num),
      validateScan, if_neg (by norm_num), if_neg (by norm_num)]
  have hf : findFrom (lbrace :: (name ++ [rbrace])) rbrace 0 =
      some (name.length + 1) := by
    unfold findFrom
    rw [List.drop_zero, findIdxFrom, if_neg (by decide),
      findIdxFrom_append_cons (fun c hc => (hchars c hc).2.1) []]
    simp
  have hob : parseOpenBrace PARAMETER_TYPES (lbrace :: (name ++ [rbrace])) 0 [] =
      .error (.unknownParameterType (String.mk name)) := by
    unfold parseOpenBrace
    rw [hf]
    have hsub : ((lbrace :: (name ++ [rbrace])).drop (0 + 1)).take
        (name.length + 1 - 0 - 1) = name := by
      show (name ++ [rbrace]).take (name.length + 1 - 0 - 1) = name
      have harith : name.length + 1 - 0 - 1 = name.length := by omega
      rw [harith, List.take_left]
    simp only [hsub, hmiss]
  have hstep : parseLoop PARAMETER_TYPES ((lbrace :: (name ++ [rbrace])).length + 1)
      (lbrace :: (name ++ [rbrace])) 0 [] =
      .error (.unknownParameterType (String.mk name)) := by
    rw [parseLoop_step_brace PARAMETER_TYPES ((lbrace :: (name ++ [rbrace])).length)
      (lbrace :: (name ++ [rbrace])) 0 [] (by simp) rfl]
    simp only [hob]
  unfold transform transformWith
  rw [if_neg (by simp)]
  simp only [hv, hstep]
  rfl

/-- C1 witness at the concrete name "unknown". -/
theorem c1_witness :
    transform (lbrace :: ("unknown".data ++ [rbrace])) =
      .error (.cucumberExpression ("Invalid Cucumber expression: " ++
        ("Unknown parameter type: \x7b" ++ String.mk "unknown".data ++ "\x7d"))) :=
  c1_unknown_parameter_rewrapped "unknown".data (by decide) (by decide)

/-- C6 (amended): for every validated expression in which the first
occurrence of any of `\ { ( /` is an unescaped opening parenthesis
immediately followed by `)`, `transform` fails with the generic base
expression error whose message reports the offending position ("Invalid
Cucumber expression: Empty optional text is not allowed at position k", `k`
the position of the `(`); the declared EmptyOptional error kind is never
raised by the implementation. -/
theorem c6_empty_optional_generic (p r : List Char)
    (hp : ∀ c ∈ p, c ≠ '\\' ∧ c ≠ lbrace ∧ c ≠ '(' ∧ c ≠ '/')
    (hval : validateScan none (p ++ '(' :: ')' :: r) 0 0 = .ok ()) :
    transform (p ++ '(' :: ')' :: r) =
      .error (.cucumberExpression ("Invalid Cucumber expression: " ++
        ("Empty optional text is not allowed at position " ++
          toString p.length))) := by
  have hfuel : (p ++ '(' :: ')' :: r).length + 1 = (r.length + 3) + p.length := by
    simp [List.length_append]
    try omega
  have hlen : p.length < (p ++ '(' :: ')' :: r).length := by
    simp [List.length_append]
  have hrun := parseLoop_literal_run PARAMETER_TYPES (p ++ '(' :: ')' :: r)
    p.length (r.length + 3) 0 []
    (by simp [List.length_append]; try omega)
    (fun j hj => by
      rw [Nat.zero_add, charAt_append_left _ hj]
      have hm : charAt p j ∈ p := charAt_lt_mem hj
      exact ⟨(hp _ hm).1, (hp _ hm).2.1, (hp _ hm).2.2.1, (hp _ hm).2.2.2⟩)
  rw [Nat.zero_add, List.drop_zero, List.nil_append, List.take_left] at hrun
  have hff : findFrom (p ++ '(' :: ')' :: r) ')' p.length = some (p.length + 1) := by
    unfold findFrom
    rw [List.drop_left, findIdxFrom, if_neg (by decide), findIdxFrom, if_pos rfl]
    rfl
  have hpar : parseOpenParenthesis (p ++ '(' :: ')' :: r) p.length
      (escapeRegexChars p) =
      .error (.cucumberExpression
        ("Empty optional text is not allowed at position " ++ toString p.length)) := by
    unfold parseOpenParenthesis
    rw [hff]
    have harith : p.length + 1 - p.length - 1 = 0 := by omega
    simp [harith]
  have hstep : parseLoop PARAMETER_TYPES (r.length + 3) (p ++ '(' :: ')' :: r)
      p.length (escapeRegexChars p) =
      .error (.cucumberExpression
        ("Empty optional text is not allowed at position " ++ toString p.length)) := by
    rw [show r.length + 3 = (r.length + 2) + 1 by omega,
      parseLoop_step_paren PARAMETER_TYPES (r.length + 2) (p ++ '(' :: ')' :: r)
        p.length (escapeRegexChars p) hlen (charAt_append_cons p '(' (')' :: r))]
    simp only [hpar]
  unfold transform transformWith
  rw [if_neg (by simp), hval]
  rw [hfuel, hrun, hstep]
  rfl

/-- C6 witness at the concrete input `"()"` (position 0). -/
theorem c6_witness :
    transform ([] ++ '(' :: ')' :: []) =
      .error (.cucumberExpression ("Invalid Cucumber expression: " ++
        ("Empty optional text is not allowed at position " ++
          toString (List.length ([] : List Char))))) :=
  c6_empty_optional_generic [] []
    (fun c hc => absurd hc (List.not_mem_nil c)) rfl

/-- C9: the expression `"/a"` is non-empty and passes the validator, yet the
transformer dispatches its leading unescaped `/` to the alternation handler,
which computes `pos - 1` in `size_t` arithmetic; at position 0 this wraps to
`2^64 - 1` and the backward word collection reads `expression[2^64 - 1]`, an
out-of-bounds `std::string` access (undefined behavior). -/
theorem c9_oob_read :
    transform "/a".data =
      .error (.undefinedBehavior
        "std::string index out of range: 18446744073709551615") := rfl

end Cukex
